import Mathlib

/-!
Shallow embedding of the core of the WebRegionAndAudienceAnalyzer skill:
the signal-fusion scoring engine (`compute_result` in
`scripts/analyzer/scoring.py`), the recommendation-rule engine
(`generate_recommendations` in `scripts/analyzer/recommendations.py`) and
the site-level aggregators (`scripts/analyzer/aggregation.py`), together
with the lookup tables of `scripts/analyzer/constants.py`.

Modelling conventions:
* Python floats are modelled as rationals (`ℚ`); `round(x, n)` is modelled
  by `roundTo n` using round-half-to-even, matching Python's documented
  rounding mode.
* Python dicts with insertion order are modelled as association lists
  (`List (String × ℚ)` etc.); `dict.get` / `in` become `List.lookup`.
* Python string truthiness (`if s:`) on optional strings is `strTruthy`.
* The prose fields of recommendation records (`issue`, `recommendation`,
  `codeExample`) are f-strings that no analysed property depends on; the
  record model keeps the discriminating fields `severity` and `category`
  (plus `issue` where aggregation dedups on it).
-/

namespace Analyzer

section

attribute [local semireducible] Rat.add Rat.mul Rat.inv Rat.sub

/-- Python truthiness of an optional string: `None` and `""` are falsy. -/
def strTruthy : Option String → Bool
  | none => false
  | some s => s ≠ ""

/-- Python `needle in haystack` substring test. -/
def strContains (hay ned : String) : Bool :=
  hay.data.tails.any (fun t => ned.data.isPrefixOf t)

/-- Python `s.lower()` (ASCII case folding, as in the analysed inputs). -/
def strLower (s : String) : String :=
  ⟨s.data.map Char.toLower⟩

/-- Python `s.upper()`. -/
def strUpper (s : String) : String :=
  ⟨s.data.map Char.toUpper⟩

/-- Python `s.strip()`. -/
def strTrim (s : String) : String :=
  ⟨((s.data.dropWhile Char.isWhitespace).reverse.dropWhile Char.isWhitespace).reverse⟩

/-- Python `s[:n]`. -/
def strTake (n : ℕ) (s : String) : String :=
  ⟨s.data.take n⟩

/-- Split a character list at every delimiter character (keeping empty
segments, as Python `re.split` / `str.split(sep)` do). -/
def splitCharsAux (p : Char → Bool) : List Char → List Char → List (List Char)
  | [], acc => [acc.reverse]
  | c :: cs, acc =>
      if p c then acc.reverse :: splitCharsAux p cs []
      else splitCharsAux p cs (c :: acc)

/-- Split a string on a character class, e.g. Python `re.split(r'[-_]', s)`. -/
def splitChars (p : Char → Bool) (s : String) : List String :=
  (splitCharsAux p s.data []).map (fun cs => ⟨cs⟩)

/-- The characters before the first character satisfying `p`. -/
def takeUntilChar (p : Char → Bool) : List Char → List Char
  | [] => []
  | c :: cs => if p c then [] else c :: takeUntilChar p cs

/-- Python `s.replace('-', '')`. -/
def removeDashes (s : String) : String :=
  ⟨s.data.filter (fun c => ¬ c = '-')⟩

/-- Python `round` to an integer: round half to even (banker's rounding).
`Rat.floor q` plays the role of `f` and `q - f` of the fractional part. -/
def pyRound (q : ℚ) : ℤ :=
  if q - ((Rat.floor q : ℤ) : ℚ) < 1/2 then Rat.floor q
  else if 1/2 < q - ((Rat.floor q : ℤ) : ℚ) then Rat.floor q + 1
  else if Rat.floor q % 2 = 0 then Rat.floor q else Rat.floor q + 1

/-- Python `round(q, n)`. -/
def roundTo (n : ℕ) (q : ℚ) : ℚ :=
  (pyRound (q * 10 ^ n) : ℚ) / 10 ^ n

/-- Python `s.split('-')[0].split('_')[0]`: the base language code. -/
def baseLang (s : String) : String :=
  ⟨takeUntilChar (fun c => c = '_') (takeUntilChar (fun c => c = '-') s.data)⟩

/-! ## constants.py -/

def TLD_MAP : List (String × String) := [
  (".cn", "CN"), (".de", "DE"), (".jp", "JP"), (".uk", "GB"), (".fr", "FR"), (".ru", "RU"),
  (".br", "BR"), (".in", "IN"), (".kr", "KR"), (".au", "AU"), (".ca", "CA"), (".it", "IT"),
  (".es", "ES"), (".nl", "NL"), (".se", "SE"), (".no", "NO"), (".dk", "DK"), (".fi", "FI"),
  (".pl", "PL"), (".tr", "TR"), (".id", "ID"), (".vn", "VN"), (".th", "TH"), (".my", "MY"),
  (".sg", "SG"), (".ph", "PH"), (".mx", "MX"), (".ar", "AR"), (".cl", "CL"), (".co", "CO"),
  (".za", "ZA"), (".eg", "EG"), (".sa", "SA"), (".ae", "AE"), (".il", "IL"), (".nz", "NZ"),
  (".ie", "IE"), (".ch", "CH"), (".at", "AT"), (".be", "BE"), (".pt", "PT"), (".gr", "GR"),
  (".cz", "CZ"), (".hu", "HU"), (".ro", "RO"), (".ua", "UA"), (".tw", "TW"), (".hk", "HK")]

def LANG_TO_REGION : List (String × String) := [
  ("zh", "CN"), ("ja", "JP"), ("ko", "KR"), ("de", "DE"), ("fr", "FR"), ("ru", "RU"),
  ("pt", "BR"), ("it", "IT"), ("es", "ES"), ("nl", "NL"), ("pl", "PL"), ("tr", "TR"),
  ("vi", "VN"), ("th", "TH"), ("id", "ID"), ("ms", "MY"), ("tl", "PH"), ("ar", "SA"),
  ("he", "IL"), ("hi", "IN"), ("bn", "BD"), ("uk", "UA"), ("cs", "CZ"), ("hu", "HU"),
  ("ro", "RO"), ("el", "GR"), ("sv", "SE"), ("no", "NO"), ("da", "DK"), ("fi", "FI"),
  ("fa", "IR"), ("sw", "KE")]

def COUNTRY_NAMES : List (String × String) := [
  ("CN", "China"), ("US", "United States"), ("DE", "Germany"), ("JP", "Japan"),
  ("GB", "United Kingdom"), ("FR", "France"), ("RU", "Russia"), ("BR", "Brazil"),
  ("IN", "India"), ("KR", "South Korea"), ("AU", "Australia"), ("CA", "Canada"),
  ("IT", "Italy"), ("ES", "Spain"), ("NL", "Netherlands"), ("SE", "Sweden"),
  ("NO", "Norway"), ("DK", "Denmark"), ("FI", "Finland"), ("PL", "Poland"),
  ("TR", "Turkey"), ("ID", "Indonesia"), ("VN", "Vietnam"), ("TH", "Thailand"),
  ("MY", "Malaysia"), ("SG", "Singapore"), ("PH", "Philippines"), ("MX", "Mexico"),
  ("AR", "Argentina"), ("CL", "Chile"), ("CO", "Colombia"), ("ZA", "South Africa"),
  ("EG", "Egypt"), ("SA", "Saudi Arabia"), ("AE", "UAE"), ("IL", "Israel"),
  ("NZ", "New Zealand"), ("IE", "Ireland"), ("CH", "Switzerland"), ("AT", "Austria"),
  ("BE", "Belgium"), ("PT", "Portugal"), ("GR", "Greece"), ("CZ", "Czech Republic"),
  ("HU", "Hungary"), ("RO", "Romania"), ("UA", "Ukraine"), ("TW", "Taiwan"),
  ("HK", "Hong Kong"), ("BD", "Bangladesh"), ("IR", "Iran"), ("KE", "Kenya"),
  ("EU", "European Union")]

def LANG_NAMES : List (String × String) := [
  ("en", "English"), ("zh", "Chinese"), ("zh-cn", "Simplified Chinese"),
  ("zh-tw", "Traditional Chinese"), ("ja", "Japanese"), ("ko", "Korean"),
  ("de", "German"), ("fr", "French"), ("es", "Spanish"), ("pt", "Portuguese"),
  ("ru", "Russian"), ("ar", "Arabic"), ("hi", "Hindi"), ("it", "Italian"),
  ("nl", "Dutch"), ("pl", "Polish"), ("tr", "Turkish"), ("vi", "Vietnamese"),
  ("th", "Thai"), ("id", "Indonesian"), ("ms", "Malay"), ("sv", "Swedish"),
  ("no", "Norwegian"), ("da", "Danish"), ("fi", "Finnish"), ("he", "Hebrew"),
  ("uk", "Ukrainian"), ("cs", "Czech"), ("hu", "Hungarian"), ("ro", "Romanian"),
  ("el", "Greek"), ("fa", "Persian"), ("bn", "Bengali"), ("tl", "Filipino")]

def CURRENCY_MAP : List (String × String) := [
  ("USD", "US"), ("EUR", "EU"), ("CNY", "CN"), ("RMB", "CN"), ("GBP", "GB"), ("JPY", "JP"),
  ("INR", "IN"), ("RUB", "RU"), ("BRL", "BR"), ("KRW", "KR"), ("AUD", "AU"), ("CAD", "CA"),
  ("CHF", "CH"), ("HKD", "HK"), ("SGD", "SG"), ("SEK", "SE"), ("NOK", "NO"), ("DKK", "DK"),
  ("PLN", "PL"), ("TRY", "TR"), ("THB", "TH"), ("IDR", "ID"), ("MYR", "MY"), ("PHP", "PH"),
  ("VND", "VN"), ("MXN", "MX"), ("ZAR", "ZA"), ("ILS", "IL"), ("SAR", "SA"), ("AED", "AE")]

def PAYMENT_METHODS : List (String × List String) := [
  ("NL", ["iDEAL"]),
  ("DE", ["Sofort", "Giropay", "Klarna", "SEPA", "Rechnung"]),
  ("AT", ["EPS"]),
  ("PL", ["BLIK", "Przelewy24"]),
  ("BR", ["Pix", "Boleto"]),
  ("BE", ["Bancontact"]),
  ("CN", ["Alipay", "WeChat Pay", "UnionPay"]),
  ("JP", ["Konbini", "JCB", "PayPay"]),
  ("RU", ["Mir", "Yandex"]),
  ("IN", ["UPI", "RuPay", "Paytm"]),
  ("SE", ["Swish"]),
  ("CH", ["TWINT"])]

/-! ## Evidence model -/

structure HtmlSignals where
  lang : Option String := none
  metaLocale : Option String := none
  metaLanguage : Option String := none
  charset : Option String := none
  hreflangTags : List String := []
  tld : Option String := none
deriving DecidableEq, Repr

structure LangDetResult where
  lang : String := ""
  confidence : Option ℚ := none
deriving DecidableEq, Repr

/-- The `languageDetection` sub-object; an `{error}` answer is an empty
`results` list (the code treats `'results' in d and d['results']` alike). -/
structure LanguageDetection where
  results : List LangDetResult := []
deriving DecidableEq, Repr

structure IpGeolocation where
  countryCode : Option String := none
  isp : String := ""
  org : String := ""
deriving DecidableEq, Repr

structure SocialSignal where
  domain : String := ""
  region : String := ""
deriving DecidableEq, Repr

structure PaymentSignal where
  method : String := ""
  region : String := ""
deriving DecidableEq, Repr

structure InputField where
  name : Option String := none
  type : Option String := none
deriving DecidableEq, Repr

structure ImageInfo where
  alt : Option String := none
deriving DecidableEq, Repr

structure UxSignals where
  viewport : Option String := none
  inputs : List InputField := []
  images : List ImageInfo := []
deriving DecidableEq, Repr

structure SpellingCounts where
  us : ℕ := 0
  uk : ℕ := 0
deriving DecidableEq, Repr

structure UnitCounts where
  imperial : ℕ := 0
  metric : ℕ := 0
deriving DecidableEq, Repr

structure ContentSignals where
  currencyCodes : List String := []
  currencySymbols : List String := []
  phoneFormats : List String := []
  socialMediaSignals : List SocialSignal := []
  paymentMethods : List PaymentSignal := []
  spellingCounts : SpellingCounts := {}
  unitCounts : UnitCounts := {}
  uxSignals : UxSignals := {}
deriving DecidableEq, Repr

structure Evidence where
  htmlSignals : HtmlSignals := {}
  contentSignals : ContentSignals := {}
  ipGeolocation : IpGeolocation := {}
  languageDetection : LanguageDetection := {}
deriving DecidableEq, Repr

/-! ## scoring.py — compute_result -/

/-- The mutable accumulation state of `compute_result`
(`scores`, `max_weight`, `primary_lang`, `lang_confidence`). -/
structure ScoreState where
  scores : List (String × ℚ) := []
  max_weight : ℚ := 0
  primary_lang : Option String := none
  lang_confidence : ℚ := 0
deriving DecidableEq, Repr

/-- `scores[region] = scores.get(region, 0) + weight` on an
insertion-ordered association list. -/
def updateScore {β : Type} [Add β] : List (String × β) → String → β → List (String × β)
  | [], r, w => [(r, w)]
  | (k, v) :: rest, r, w =>
      if k = r then (k, v + w) :: rest else (k, v) :: updateScore rest r w

/-- `add_score(region, weight)`: only a truthy region scores, and only then
is `max_weight` incremented. -/
def add_score (st : ScoreState) (region : String) (weight : ℚ) : ScoreState :=
  if region ≠ "" then
    { st with scores := updateScore st.scores region weight
              max_weight := st.max_weight + weight }
  else st

/-- TLD signal: weight 1.0, else `max_weight += 1.0`. -/
def tldStep (st : ScoreState) (tld : Option String) : ScoreState :=
  if strTruthy tld ∧ (TLD_MAP.lookup (tld.getD "")).isSome then
    add_score st ((TLD_MAP.lookup (tld.getD "")).getD "") 1
  else
    { st with max_weight := st.max_weight + 1 }

/-- `re.split(r'[-_]', s.lower().strip())`, as used for `html lang` and
`content-language`. -/
def langParts (v : String) : List String :=
  splitChars (fun c => c = '-' ∨ c = '_') (strTrim (strLower v))

/-- `locale.split('_')`, as used for `og:locale`. -/
def ogParts (v : String) : List String :=
  splitChars (fun c => c = '_') v

/-- `html lang` attribute: region subtag 0.9, bare mapped code 0.7,
unmapped bare code only bumps `max_weight` by 0.7; absent bumps by 0.9. -/
def htmlLangStep (st : ScoreState) (lang : Option String) : ScoreState :=
  if strTruthy lang then
    let lang_lower := strTrim (strLower (lang.getD ""))
    let parts := langParts (lang.getD "")
    let lang_code := parts.headD ""
    if parts.length ≥ 2 then
      let region := strUpper (parts.getD 1 "")
      { add_score st region (9/10) with primary_lang := some lang_lower }
    else if (LANG_TO_REGION.lookup lang_code).isSome then
      { add_score st ((LANG_TO_REGION.lookup lang_code).getD "") (7/10) with
          primary_lang := some lang_code }
    else
      { st with primary_lang := some lang_code
                max_weight := st.max_weight + 7/10 }
  else
    { st with max_weight := st.max_weight + 9/10 }

/-- `og:locale` meta: explicit region part 0.8, mapped base language 0.5;
note that a present but unresolvable value changes nothing. -/
def ogLocaleStep (st : ScoreState) (locale : Option String) : ScoreState :=
  if strTruthy locale then
    let parts := ogParts (locale.getD "")
    if parts.length ≥ 2 then
      add_score st (strUpper (parts.getD 1 "")) (8/10)
    else if (LANG_TO_REGION.lookup (strLower (parts.headD ""))).isSome then
      add_score st ((LANG_TO_REGION.lookup (strLower (parts.headD ""))).getD "") (1/2)
    else st
  else
    { st with max_weight := st.max_weight + 8/10 }

/-- `content-language` meta: region part 0.7, mapped base 0.5; a present but
unresolvable value changes nothing. -/
def contentLangStep (st : ScoreState) (content_lang : Option String) : ScoreState :=
  if strTruthy content_lang then
    let cl_parts := langParts (content_lang.getD "")
    if cl_parts.length ≥ 2 then
      add_score st (strUpper (cl_parts.getD 1 "")) (7/10)
    else if (LANG_TO_REGION.lookup (cl_parts.headD "")).isSome then
      add_score st ((LANG_TO_REGION.lookup (cl_parts.headD "")).getD "") (1/2)
    else st
  else
    { st with max_weight := st.max_weight + 7/10 }

/-- Language detection: top result scores `0.6 × confidence` when it maps
to a region and confidence exceeds 0.5; otherwise `max_weight += 0.6`. -/
def langDetStep (st : ScoreState) (results : List LangDetResult) : ScoreState :=
  match results with
  | [] => { st with max_weight := st.max_weight + 6/10 }
  | top :: _ =>
      let detected_lang := top.lang
      let detected_conf := top.confidence.getD 0
      let st1 := { st with
        primary_lang := if strTruthy st.primary_lang then st.primary_lang
                        else some detected_lang
        lang_confidence := detected_conf }
      if (LANG_TO_REGION.lookup detected_lang).isSome ∧ detected_conf > 1/2 then
        add_score st1 ((LANG_TO_REGION.lookup detected_lang).getD "") (6/10 * detected_conf)
      else
        { st1 with max_weight := st1.max_weight + 6/10 }

/-- CDN names recognized by `compute_result` (scoring.py). -/
def SCORING_CDN_LIST : List String :=
  ["cloudflare", "akamai", "fastly", "cloudfront", "twitter",
   "edgecast", "stackpath", "incapsula", "sucuri"]

/-- IP geolocation: weight 0.4, halved to 0.2 on a CDN ISP/org. -/
def ipStep (st : ScoreState) (ip_geo : IpGeolocation) : ScoreState :=
  match ip_geo.countryCode with
  | some cc =>
      let isp := strLower (ip_geo.isp ++ " " ++ ip_geo.org)
      let is_cdn := SCORING_CDN_LIST.any (fun cdn => strContains isp cdn)
      let ip_weight : ℚ := if is_cdn then 2/10 else 4/10
      add_score st cc ip_weight
  | none => { st with max_weight := st.max_weight + 4/10 }

/-- Currency codes: 0.3 per listed code found in `CURRENCY_MAP`. -/
def currencyStep (st : ScoreState) (codes : List String) : ScoreState :=
  codes.foldl (fun s code =>
    if (CURRENCY_MAP.lookup code).isSome then
      add_score s ((CURRENCY_MAP.lookup code).getD "") (3/10)
    else s) st

/-- Phone prefixes: 0.3 per listed country. -/
def phoneStep (st : ScoreState) (countries : List String) : ScoreState :=
  countries.foldl (fun s country => add_score s country (3/10)) st

/-- Social media: 0.3 per signal whose region has no ambiguity slash. -/
def socialStep (st : ScoreState) (sigs : List SocialSignal) : ScoreState :=
  sigs.foldl (fun s sig =>
    if ¬ strContains sig.region "/" then add_score s sig.region (3/10) else s) st

/-- Every accumulated score is non-negative and so is `max_weight`: the
invariant maintained throughout the accumulation phase. -/
@[reducible] def NonnegState (st : ScoreState) : Prop :=
  (∀ p ∈ st.scores, 0 ≤ p.2) ∧ 0 ≤ st.max_weight

/-- The whole accumulation phase of `compute_result`, in source order. -/
def scoreEvidence (evidence : Evidence) : ScoreState :=
  let html_s := evidence.htmlSignals
  let content_s := evidence.contentSignals
  let st := tldStep {} html_s.tld
  let st := htmlLangStep st html_s.lang
  let st := ogLocaleStep st html_s.metaLocale
  let st := contentLangStep st html_s.metaLanguage
  let st := langDetStep st evidence.languageDetection.results
  let st := ipStep st evidence.ipGeolocation
  let st := currencyStep st content_s.currencyCodes
  let st := phoneStep st content_s.phoneFormats
  let st := socialStep st content_s.socialMediaSignals
  st

/-- Python `max(scores, key=lambda k: scores[k])` over an insertion-ordered
association list: the first key attaining the maximal value. -/
def argmaxFirst {β : Type} [LinearOrder β] :
    List (String × β) → Option (String × β)
  | [] => none
  | (k, v) :: rest =>
      match argmaxFirst rest with
      | none => some (k, v)
      | some (k', v') => if v' > v then some (k', v') else some (k, v)

structure Result where
  primaryRegion : Option String
  primaryRegionName : Option String
  primaryLanguage : Option String
  primaryLanguageName : Option String
  likelyAudience : String
  regionConfidence : ℚ
  languageConfidence : Option ℚ
  signalBreakdown : List (String × ℚ)
deriving DecidableEq, Repr

/-- `compute_result(evidence)`: fuse the accumulated state into a `Result`. -/
def compute_result (evidence : Evidence) : Result :=
  let st := scoreEvidence evidence
  let pr : Option String × ℚ :=
    match argmaxFirst st.scores with
    | some (k, raw) =>
        let conf := if st.max_weight > 0 then min (raw / st.max_weight) 1 else min raw 1
        (some k, roundTo 2 conf)
    | none => (none, 0)
  let primary_region := pr.1
  let confidence := pr.2
  let primary_lang :=
    if ¬ strTruthy st.primary_lang ∧ strTruthy primary_region then
      match LANG_TO_REGION.find? (fun p => p.2 = primary_region.getD "") with
      | some p => some p.1
      | none => st.primary_lang
    else st.primary_lang
  let country_name :=
    if strTruthy primary_region then
      some ((COUNTRY_NAMES.lookup (primary_region.getD "")).getD (primary_region.getD ""))
    else none
  let lang_name :=
    if strTruthy primary_lang then
      some ((LANG_NAMES.lookup (primary_lang.getD "")).getD (primary_lang.getD ""))
    else none
  let audience :=
    if strTruthy primary_region ∧ strTruthy primary_lang then
      (lang_name.getD "") ++ "-speaking audience in " ++ (country_name.getD "")
    else if strTruthy primary_region then
      "Audience in " ++ (country_name.getD "")
    else "Unknown"
  { primaryRegion := primary_region
    primaryRegionName := country_name
    primaryLanguage := primary_lang
    primaryLanguageName := lang_name
    likelyAudience := audience
    regionConfidence := confidence
    languageConfidence :=
      if st.lang_confidence ≠ 0 then some (roundTo 4 st.lang_confidence) else none
    signalBreakdown :=
      (st.scores.insertionSort (fun a b => b.2 ≤ a.2)).map
        (fun p => (p.1, roundTo 3 p.2)) }

/-! ## recommendations.py — generate_recommendations -/

/-- A recommendation record, keeping the fields the analysed properties
depend on (`severity`, `category`); the prose fields are elided. -/
structure Recommendation where
  severity : String
  category : String
deriving DecidableEq, Repr

/-- Python `x in (...)` on an optional string against a tuple of strings. -/
def optIn (o : Option String) (l : List String) : Bool :=
  match o with
  | none => false
  | some s => s ∈ l

def MAJOR_MARKETS : List String :=
  ["en", "zh", "ja", "ko", "de", "fr", "es", "pt", "ru", "ar"]

def REGION_CURRENCY : List (String × List String) := [
  ("US", ["USD"]), ("GB", ["GBP"]), ("EU", ["EUR"]), ("DE", ["EUR"]), ("FR", ["EUR"]),
  ("IT", ["EUR"]), ("ES", ["EUR"]), ("NL", ["EUR"]), ("BE", ["EUR"]), ("AT", ["EUR"]),
  ("PT", ["EUR"]), ("GR", ["EUR"]), ("FI", ["EUR"]), ("IE", ["EUR"]),
  ("JP", ["JPY"]), ("CN", ["CNY", "RMB"]), ("KR", ["KRW"]), ("IN", ["INR"]),
  ("BR", ["BRL"]), ("RU", ["RUB"]), ("AU", ["AUD"]), ("CA", ["CAD"]),
  ("MX", ["MXN"]), ("TH", ["THB"]), ("VN", ["VND"]), ("ID", ["IDR"]),
  ("MY", ["MYR"]), ("PH", ["PHP"]), ("SG", ["SGD"]), ("HK", ["HKD"]),
  ("SE", ["SEK"]), ("NO", ["NOK"]), ("DK", ["DKK"]), ("PL", ["PLN"]),
  ("TR", ["TRY"]), ("CH", ["CHF"]), ("ZA", ["ZAR"]), ("SA", ["SAR"]),
  ("AE", ["AED"]), ("IL", ["ILS"]), ("TW", ["TWD"])]

def REGION_SOCIAL : List (String × List String) := [
  ("CN", ["weixin.qq.com", "weibo.com", "douyin.com"]),
  ("RU", ["vk.com", "ok.ru"]),
  ("JP", ["line.me"]),
  ("KR", ["kakaotalk.com", "naver.com"])]

/-- Rule 1: hreflang audit. -/
def hreflangAudit (hreflangs : List String) (primary_lang : Option String) :
    List Recommendation :=
  if hreflangs = [] then
    [⟨"critical", "hreflang"⟩]
  else
    let hreflang_lower := hreflangs.map strLower
    (if "x-default" ∉ hreflang_lower then [⟨"critical", "hreflang"⟩] else []) ++
    (if strTruthy primary_lang then
       let primary_base := baseLang (primary_lang.getD "")
       let has_self_ref :=
         hreflang_lower.any (fun h => h ≠ "x-default" ∧ baseLang h = primary_base)
       if ¬ has_self_ref then [⟨"warning", "hreflang"⟩] else []
     else [])

/-- Rule 2: missing locale declarations. -/
def localeDeclarations (lang_attr og_locale content_language : Option String) :
    List Recommendation :=
  (if ¬ strTruthy lang_attr then [⟨"critical", "locale-declaration"⟩] else []) ++
  (if ¬ strTruthy og_locale then [⟨"warning", "locale-declaration"⟩] else []) ++
  (if ¬ strTruthy content_language then [⟨"info", "locale-declaration"⟩] else [])

/-- `og_locale.lower().split('_')[0].split('-')[0]`. -/
def ogBase (s : String) : String :=
  ⟨takeUntilChar (fun c => c = '-') (takeUntilChar (fun c => c = '_') s.data)⟩

/-- The ordered values of the `declared_langs` dict of rule 3. -/
def declaredLangValues (lang_attr og_locale content_language : Option String) :
    List String :=
  (if strTruthy lang_attr then [baseLang (strLower (lang_attr.getD ""))] else []) ++
  (if strTruthy og_locale then [ogBase (strLower (og_locale.getD ""))] else []) ++
  (if strTruthy content_language then [baseLang (strLower (content_language.getD ""))] else [])

/-- Rule 3: locale signal consistency, plus detected-vs-declared check. -/
def localeConsistency (lang_attr og_locale content_language : Option String)
    (results : List LangDetResult) : List Recommendation :=
  (if (declaredLangValues lang_attr og_locale content_language).dedup.length > 1 then
     [⟨"critical", "locale-consistency"⟩]
   else []) ++
  (if results ≠ [] ∧ strTruthy lang_attr then
     let detected_lang := (results.headD {}).lang
     let declared_base := baseLang (strLower (lang_attr.getD ""))
     let detected_conf := (results.headD {}).confidence.getD 0
     if detected_lang ≠ declared_base ∧ detected_conf > 7/10 then
       [⟨"warning", "locale-consistency"⟩]
     else []
   else [])

/-- Rule 4: TLD vs content mismatch. -/
def tldContentMismatch (tld primary_lang : Option String) : List Recommendation :=
  if strTruthy tld ∧ (TLD_MAP.lookup (tld.getD "")).isSome ∧ strTruthy primary_lang then
    let tld_region := (TLD_MAP.lookup (tld.getD "")).getD ""
    let tld_langs := (LANG_TO_REGION.filter (fun p => p.2 = tld_region)).map (fun p => p.1)
    let lang_base := baseLang (primary_lang.getD "")
    if lang_base ∉ tld_langs ∧ lang_base ≠ "en" ∧ tld_langs ≠ [] then
      [⟨"warning", "tld-content-mismatch"⟩]
    else []
  else []

/-- CDN names recognized by `generate_recommendations` (recommendations.py). -/
def RECS_CDN_LIST : List String :=
  ["cloudflare", "akamai", "fastly", "cloudfront", "edgecast",
   "stackpath", "incapsula", "sucuri", "google", "microsoft", "amazon"]

/-- Rule 5: IP/hosting alignment. -/
def hostingAlignment (ip_geo : IpGeolocation) (primary_region : Option String) :
    List Recommendation :=
  if strTruthy ip_geo.countryCode ∧ strTruthy primary_region then
    let server_region := ip_geo.countryCode.getD ""
    let isp_info := strLower (ip_geo.isp ++ " " ++ ip_geo.org)
    let is_cdn := RECS_CDN_LIST.any (fun cdn => strContains isp_info cdn)
    if server_region ≠ primary_region.getD "" ∧ ¬ is_cdn then
      [⟨"warning", "hosting-alignment"⟩]
    else if is_cdn then
      [⟨"info", "hosting-alignment"⟩]
    else []
  else []

/-- Rule 6: charset issues. -/
def charsetAudit (charset : Option String) : List Recommendation :=
  if ¬ strTruthy charset then
    [⟨"warning", "charset"⟩]
  else if removeDashes (strLower (charset.getD "")) ∉ ["utf8", "utf16"] then
    [⟨"warning", "charset"⟩]
  else []

/-- Rule 7: market adaptation — currency. -/
def currencyAdaptation (primary_region : Option String) (content_s : ContentSignals) :
    List Recommendation :=
  if strTruthy primary_region ∧
      (REGION_CURRENCY.lookup (primary_region.getD "")).isSome then
    let expected := (REGION_CURRENCY.lookup (primary_region.getD "")).getD []
    let found_codes := content_s.currencyCodes
    let all_found := found_codes ++ content_s.currencySymbols
    let has_local := expected.any (fun c => c ∈ all_found)
    if ¬ has_local ∧ found_codes ≠ [] then [⟨"warning", "market-adaptation"⟩] else []
  else []

/-- Rule 7b: market adaptation — regional social platforms. -/
def socialAdaptation (primary_region : Option String) (content_s : ContentSignals) :
    List Recommendation :=
  if strTruthy primary_region ∧
      (REGION_SOCIAL.lookup (primary_region.getD "")).isSome then
    let expected := (REGION_SOCIAL.lookup (primary_region.getD "")).getD []
    let found_domains := content_s.socialMediaSignals.map (fun s => s.domain)
    let missing := expected.filter (fun s => s ∉ found_domains)
    if missing ≠ [] then [⟨"info", "market-adaptation"⟩] else []
  else []

/-- Rule 7c: cultural adaptation — payment methods. -/
def paymentAdaptation (primary_region : Option String) (content_s : ContentSignals) :
    List Recommendation :=
  if strTruthy primary_region ∧
      (PAYMENT_METHODS.lookup (primary_region.getD "")).isSome then
    let found_methods :=
      (content_s.paymentMethods.filter (fun p => p.region = primary_region.getD "")).map
        (fun p => p.method)
    if found_methods = [] then [⟨"info", "market-adaptation"⟩] else []
  else []

/-- Rule 7d: cultural adaptation — US/UK spelling. -/
def spellingAdaptation (primary_region : Option String) (sc : SpellingCounts) :
    List Recommendation :=
  let us_count := sc.us
  let uk_count := sc.uk
  if optIn primary_region ["US", "PH"] ∧ uk_count > us_count ∧ uk_count > 0 then
    [⟨"info", "cultural-adaptation"⟩]
  else if optIn primary_region ["GB", "AU", "NZ", "IE", "ZA"] ∧ us_count > uk_count ∧
      us_count > 0 then
    [⟨"info", "cultural-adaptation"⟩]
  else []

/-- Rule 7e: cultural adaptation — measurement units. -/
def unitsAdaptation (primary_region : Option String) (uc : UnitCounts) :
    List Recommendation :=
  let imp_count := uc.imperial
  let met_count := uc.metric
  if primary_region = some "US" ∧ met_count > imp_count ∧ met_count > 0 then
    [⟨"info", "cultural-adaptation"⟩]
  else if ¬ optIn primary_region ["US", "LR", "MM"] ∧ strTruthy primary_region ∧
      imp_count > met_count ∧ imp_count > 0 then
    [⟨"info", "cultural-adaptation"⟩]
  else []

/-- Python `(inp.get('type') or 'text').lower()`. -/
def inputType (inp : InputField) : String :=
  strLower (if inp.type.getD "" = "" then "text" else inp.type.getD "")

/-- Rule 10: UX & accessibility (viewport, input types, image alt text). -/
def uxAudit (ux : UxSignals) : List Recommendation :=
  (match ux.viewport with
   | v =>
     if ¬ strTruthy v then [⟨"critical", "ux-mobile"⟩]
     else if ¬ strContains (v.getD "") "width=device-width" ∧
         ¬ strContains (v.getD "") "initial-scale=1" then
       [⟨"warning", "ux-mobile"⟩]
     else []) ++
  (match ux.inputs.find? (fun inp =>
      strContains (strLower (inp.name.getD "")) "email" ∧ inputType inp ≠ "email") with
   | some _ => [⟨"info", "ux-forms"⟩]
   | none => []) ++
  (match ux.inputs.find? (fun inp =>
      let name := strLower (inp.name.getD "")
      (strContains name "phone" ∨ strContains name "tel" ∨ strContains name "mobile") ∧
        inputType inp ≠ "tel") with
   | some _ => [⟨"info", "ux-forms"⟩]
   | none => []) ++
  (if ux.images ≠ [] then
     let missing_alt := (ux.images.filter (fun img => ¬ strTruthy img.alt)).length
     if missing_alt > 0 ∧ (missing_alt : ℚ) / ux.images.length > 1/2 then
       [⟨"warning", "accessibility"⟩]
     else []
   else [])

/-- The deduplicated base-language set accumulated by the multi-market rule
(a Python `set`, modelled as a first-occurrence-ordered list). -/
def hreflangBases (hreflangs : List String) : List String :=
  hreflangs.foldl (fun acc h =>
    if strLower h ≠ "x-default" then
      let b := baseLang (strLower h)
      if b ∈ acc then acc else acc ++ [b]
    else acc) []

/-- `missing_major` of the multi-market rule, as display names. -/
def missingMajor (hreflangs : List String) : List String :=
  (MAJOR_MARKETS.filter (fun m => m ∉ hreflangBases hreflangs)).map
    (fun m => (LANG_NAMES.lookup m).getD m)

/-- Rule 9 (labelled 8 in the source, executed last): multi-market coverage. -/
def marketCoverage (hreflangs : List String) : List Recommendation :=
  if hreflangs ≠ [] ∧ hreflangs.length ≥ 2 then
    let missing := missingMajor hreflangs
    if missing ≠ [] ∧ missing.length ≤ 7 then [⟨"info", "market-coverage"⟩] else []
  else []

/-- `severity_order.get(severity, 9)`. -/
def sevRank (s : String) : ℕ :=
  if s = "critical" then 0 else if s = "warning" then 1
  else if s = "info" then 2 else 9

/-- The recommendation list of `generate_recommendations` in generation
order, before the final stable sort, rule by rule in source order. -/
def generateRecsRaw (evidence : Evidence) (result : Result) : List Recommendation :=
  let html_s := evidence.htmlSignals
  let content_s := evidence.contentSignals
  hreflangAudit html_s.hreflangTags result.primaryLanguage ++
  localeDeclarations html_s.lang html_s.metaLocale html_s.metaLanguage ++
  localeConsistency html_s.lang html_s.metaLocale html_s.metaLanguage
    evidence.languageDetection.results ++
  tldContentMismatch html_s.tld result.primaryLanguage ++
  hostingAlignment evidence.ipGeolocation result.primaryRegion ++
  charsetAudit html_s.charset ++
  currencyAdaptation result.primaryRegion content_s ++
  socialAdaptation result.primaryRegion content_s ++
  paymentAdaptation result.primaryRegion content_s ++
  spellingAdaptation result.primaryRegion content_s.spellingCounts ++
  unitsAdaptation result.primaryRegion content_s.unitCounts ++
  uxAudit content_s.uxSignals ++
  marketCoverage html_s.hreflangTags

structure Summary where
  score : ℤ
  grade : String
  totalIssues : ℕ
  critical : ℕ
  warnings : ℕ
  info : ℕ
deriving DecidableEq, Repr

structure OptimizationReport where
  summary : Summary
  recommendations : List Recommendation
deriving DecidableEq, Repr

/-- The running `score` after the three deductions, before flooring at 0. -/
def unflooredScore (critical_count warning_count info_count : ℕ) : ℤ :=
  100 - 20 * (critical_count : ℤ) - 10 * (warning_count : ℤ)
    - 2 * (info_count : ℤ)

/-- `score = max(100 - 20*critical - 10*warning - 2*info, 0)`. -/
def scoreFromCounts (critical_count warning_count info_count : ℕ) : ℤ :=
  max (unflooredScore critical_count warning_count info_count) 0

/-- The grade ladder shared by per-page and site-level summaries. -/
def scoreGrade (score : ℤ) : String :=
  if score ≥ 80 then "A"
  else if score ≥ 60 then "B"
  else if score ≥ 40 then "C"
  else if score ≥ 20 then "D"
  else "F"

/-- Position of a grade on the A–F ladder (larger is worse). -/
def gradeRank (g : String) : ℕ :=
  if g = "A" then 0 else if g = "B" then 1 else if g = "C" then 2
  else if g = "D" then 3 else 4

/-- `generate_recommendations(evidence, result)`: generate, stable-sort by
severity rank, count, score and grade. -/
def generate_recommendations (evidence : Evidence) (result : Result) :
    OptimizationReport :=
  let recs := (generateRecsRaw evidence result).insertionSort
    (fun a b => sevRank a.severity ≤ sevRank b.severity)
  let critical_count := recs.countP (fun r => r.severity = "critical")
  let warning_count := recs.countP (fun r => r.severity = "warning")
  let info_count := recs.countP (fun r => r.severity = "info")
  let score := scoreFromCounts critical_count warning_count info_count
  { summary := { score := score
                 grade := scoreGrade score
                 totalIssues := recs.length
                 critical := critical_count
                 warnings := warning_count
                 info := info_count }
    recommendations := recs }

/-! ## aggregation.py -/

/-- A recommendation as consumed by site aggregation (dedup needs `issue`). -/
structure SiteRec where
  severity : String := ""
  category : String := ""
  issue : String := ""
deriving DecidableEq, Repr

/-- The slice of a per-page result dict that `aggregate_site_results` reads. -/
structure PageRes where
  signalBreakdown : List (String × ℚ) := []
  primaryRegion : Option String := none
  primaryLanguage : Option String := none
  regionConfidence : Option ℚ := none
deriving DecidableEq, Repr

structure PageOptimization where
  recommendations : List SiteRec := []
deriving DecidableEq, Repr

/-- A per-page entry of the `page_results` list. -/
structure PageResult where
  result : Option PageRes := none
  optimization : Option PageOptimization := none
deriving DecidableEq, Repr

/-- The three accumulator dicts of the single pass in
`aggregate_site_results`. -/
structure SiteAccum where
  all_scores : List (String × ℚ) := []
  lang_counts : List (String × ℕ) := []
  region_counts : List (String × ℕ) := []
deriving DecidableEq, Repr

def siteAccumStep (acc : SiteAccum) (pr : PageResult) : SiteAccum :=
  match pr.result with
  | none => acc
  | some result =>
      let acc := { acc with
        all_scores := result.signalBreakdown.foldl
          (fun m p => updateScore m p.1 p.2) acc.all_scores }
      let acc :=
        if strTruthy result.primaryRegion then
          { acc with region_counts :=
              updateScore acc.region_counts (result.primaryRegion.getD "") 1 }
        else acc
      if strTruthy result.primaryLanguage then
        { acc with lang_counts :=
            updateScore acc.lang_counts (result.primaryLanguage.getD "") 1 }
      else acc

structure SiteResult where
  primaryRegion : Option String
  primaryRegionName : Option String
  primaryLanguage : Option String
  primaryLanguageName : Option String
  likelyAudience : String
  regionConfidence : ℚ
  regionConsistency : ℚ
  pagesAnalyzed : ℕ
  regionDistribution : List (String × ℚ)
  languageDistribution : List (String × ℕ)
deriving DecidableEq, Repr

/-- `aggregate_site_results(page_results)`: `None` on an empty list, else
argmax of summed breakdowns / language majority vote / consistency. -/
def aggregate_site_results (page_results : List PageResult) : Option SiteResult :=
  if page_results = [] then none
  else
    let acc := page_results.foldl siteAccumStep {}
    let primary_region := (argmaxFirst acc.all_scores).map (fun p => p.1)
    let primary_lang := (argmaxFirst acc.lang_counts).map (fun p => p.1)
    let num_pages := (page_results.filter (fun pr => pr.result.isSome)).length
    let consistency :=
      if strTruthy primary_region ∧ num_pages > 0 then
        roundTo 2
          ((((acc.region_counts.lookup (primary_region.getD "")).getD 0 : ℕ) : ℚ)
            / (num_pages : ℚ))
      else 0
    let confidences :=
      page_results.filterMap (fun pr => pr.result.bind (fun r => r.regionConfidence))
    let avg_confidence :=
      if confidences ≠ [] then roundTo 2 (confidences.sum / (confidences.length : ℚ))
      else 0
    let country_name :=
      if strTruthy primary_region then
        some ((COUNTRY_NAMES.lookup (primary_region.getD "")).getD (primary_region.getD ""))
      else none
    let lang_name :=
      if strTruthy primary_lang then
        some ((LANG_NAMES.lookup (primary_lang.getD "")).getD (primary_lang.getD ""))
      else none
    let audience :=
      if strTruthy primary_region ∧ strTruthy primary_lang then
        (lang_name.getD "") ++ "-speaking audience in " ++ (country_name.getD "")
      else if strTruthy primary_region then
        "Audience in " ++ (country_name.getD "")
      else "Unknown"
    some { primaryRegion := primary_region
           primaryRegionName := country_name
           primaryLanguage := primary_lang
           primaryLanguageName := lang_name
           likelyAudience := audience
           regionConfidence := avg_confidence
           regionConsistency := consistency
           pagesAnalyzed := num_pages
           regionDistribution :=
             (acc.all_scores.insertionSort (fun a b => b.2 ≤ a.2)).map
               (fun p => (p.1, roundTo 3 p.2))
           languageDistribution := acc.lang_counts }

/-- A page was analyzed (has a result) and its own primaryRegion is `k`:
the pages counted by `region_counts[k]` in `aggregate_site_results`. -/
def agreesWith (k : String) (pr : PageResult) : Bool :=
  match pr.result with
  | some res => res.primaryRegion = some k
  | none => false

structure SiteOptReport where
  summary : Summary
  recommendations : List SiteRec
deriving DecidableEq, Repr

/-- The dedup pass of `aggregate_site_optimization` (the `seen` set keyed on
severity, category and the first 80 characters of the issue). -/
def dedupRecs (page_results : List PageResult) : List SiteRec :=
  (page_results.foldl
    (fun (st : List (String × String × String) × List SiteRec) pr =>
      match pr.optimization with
      | none => st
      | some opt => opt.recommendations.foldl
          (fun st r =>
            let key := (r.severity, r.category, strTake 80 r.issue)
            if key ∈ st.1 then st else (st.1 ++ [key], st.2 ++ [r]))
          st)
    ([], [])).2

/-- `aggregate_site_optimization(page_results)`: cross-page dedup, severity
sort, and the shared score/grade formula. Note it returns a populated
report (score 100, grade A) even for zero pages. -/
def aggregate_site_optimization (page_results : List PageResult) : SiteOptReport :=
  let all_recs := (dedupRecs page_results).insertionSort
    (fun a b => sevRank a.severity ≤ sevRank b.severity)
  let critical_count := all_recs.countP (fun r => r.severity = "critical")
  let warning_count := all_recs.countP (fun r => r.severity = "warning")
  let info_count := all_recs.countP (fun r => r.severity = "info")
  let score := scoreFromCounts critical_count warning_count info_count
  { summary := { score := score
                 grade := scoreGrade score
                 totalIssues := all_recs.length
                 critical := critical_count
                 warnings := warning_count
                 info := info_count }
    recommendations := all_recs }

/-! ## Supporting lemmas -/

theorem lookup_val_ne_empty :
    ∀ (xs : List (String × String)), (∀ p ∈ xs, p.2 ≠ "") →
      ∀ k v, xs.lookup k = some v → v ≠ ""
  | [], _, k, v, h => by simp at h
  | (a, b) :: xs, hxs, k, v, h => by
      rw [List.lookup_cons] at h
      by_cases hk : k = a
      · have : (k == a) = true := by simp [hk]
        rw [this] at h
        simp only [Option.some.injEq] at h
        exact h ▸ hxs (a, b) (by simp)
      · have : (k == a) = false := by simp [hk]
        rw [this] at h
        exact lookup_val_ne_empty xs (fun p hp => hxs p (by simp [hp])) k v h

theorem argmaxFirst_mem {β : Type} [LinearOrder β] {l : List (String × β)} :
    ∀ {kv : String × β}, argmaxFirst l = some kv → kv ∈ l := by
  induction l with
  | nil => intro kv h; simp [argmaxFirst] at h
  | cons a rest ih =>
      intro kv h
      obtain ⟨k, v⟩ := a
      rw [argmaxFirst] at h
      rcases hr : argmaxFirst rest with - | kv'
      · rw [hr] at h
        simp only [Option.some.injEq] at h
        simp [← h]
      · obtain ⟨k', v'⟩ := kv'
        rw [hr] at h
        dsimp only at h
        split_ifs at h with hv
        · simp only [Option.some.injEq] at h
          exact List.mem_cons_of_mem _ (h ▸ ih hr)
        · simp only [Option.some.injEq] at h
          simp [← h]

theorem argmaxFirst_eq_none {β : Type} [LinearOrder β] {l : List (String × β)} :
    argmaxFirst l = none ↔ l = [] := by
  cases l with
  | nil => simp [argmaxFirst]
  | cons a rest =>
      obtain ⟨k, v⟩ := a
      simp only [argmaxFirst, List.cons_ne_nil, iff_false]
      rcases hr : argmaxFirst rest with - | ⟨k', v'⟩
      · simp
      · dsimp only
        split <;> simp

theorem ratFloor_cast_le (q : ℚ) : ((Rat.floor q : ℤ) : ℚ) ≤ q :=
  Rat.le_floor.mp le_rfl

theorem ratFloor_le_of_le {q : ℚ} {B : ℤ} (h : q ≤ (B : ℚ)) : Rat.floor q ≤ B := by
  have h1 : ((Rat.floor q : ℤ) : ℚ) ≤ (B : ℚ) := le_trans (ratFloor_cast_le q) h
  exact_mod_cast h1

theorem pyRound_nonneg {q : ℚ} (h : 0 ≤ q) : 0 ≤ pyRound q := by
  have hf : (0 : ℤ) ≤ Rat.floor q := Rat.le_floor.mpr (by exact_mod_cast h)
  unfold pyRound
  split_ifs <;> omega

theorem pyRound_le {q : ℚ} {B : ℤ} (h : q ≤ (B : ℚ)) : pyRound q ≤ B := by
  have hfB : Rat.floor q ≤ B := ratFloor_le_of_le h
  unfold pyRound
  split_ifs with h1 h2 h3
  · exact hfB
  · rcases lt_or_eq_of_le hfB with hlt | heq
    · omega
    · exfalso
      have hle : q - ((Rat.floor q : ℤ) : ℚ) ≤ 0 := by rw [heq]; linarith
      linarith
  · exact hfB
  · rcases lt_or_eq_of_le hfB with hlt | heq
    · omega
    · exfalso
      have hge : (1 : ℚ)/2 ≤ q - ((Rat.floor q : ℤ) : ℚ) := not_lt.mp h1
      have hle : q - ((Rat.floor q : ℤ) : ℚ) ≤ 0 := by rw [heq]; linarith
      linarith

theorem roundTo_two_bounds {q : ℚ} (h0 : 0 ≤ q) (h1 : q ≤ 1) :
    0 ≤ roundTo 2 q ∧ roundTo 2 q ≤ 1 := by
  unfold roundTo
  have hn : 0 ≤ pyRound (q * 10 ^ 2) := pyRound_nonneg (by positivity)
  have hb : pyRound (q * 10 ^ 2) ≤ 100 := pyRound_le (by push_cast; linarith)
  constructor
  · exact div_nonneg (by exact_mod_cast hn) (by norm_num)
  · rw [div_le_one (by norm_num : (0:ℚ) < 10 ^ 2)]
    have hc : ((pyRound (q * 10 ^ 2) : ℤ) : ℚ) ≤ ((100 : ℤ) : ℚ) := by exact_mod_cast hb
    simpa using hc

theorem updateScore_nonneg {l : List (String × ℚ)} {r : String} {w : ℚ}
    (hl : ∀ p ∈ l, 0 ≤ p.2) (hw : 0 ≤ w) :
    ∀ p ∈ updateScore l r w, 0 ≤ p.2 := by
  induction l with
  | nil =>
      intro p hp
      simp only [updateScore, List.mem_singleton] at hp
      rw [hp]
      exact hw
  | cons a rest ih =>
      intro p hp
      obtain ⟨k, v⟩ := a
      rw [updateScore] at hp
      by_cases hk : k = r
      · rw [if_pos hk] at hp
        rcases List.mem_cons.mp hp with h | h
        · rw [h]
          exact add_nonneg (hl (k, v) (by simp)) hw
        · exact hl p (List.mem_cons_of_mem _ h)
      · rw [if_neg hk] at hp
        rcases List.mem_cons.mp hp with h | h
        · exact h ▸ hl (k, v) (by simp)
        · exact ih (fun p hp => hl p (List.mem_cons_of_mem _ hp)) p h

theorem add_score_nonneg {st : ScoreState} {r : String} {w : ℚ}
    (h : NonnegState st) (hw : 0 ≤ w) : NonnegState (add_score st r w) := by
  unfold add_score
  split
  · exact ⟨updateScore_nonneg h.1 hw, add_nonneg h.2 hw⟩
  · exact h

theorem foldl_preserve {α : Type} {P : ScoreState → Prop} {f : ScoreState → α → ScoreState}
    (hf : ∀ s x, P s → P (f s x)) :
    ∀ (l : List α) (s : ScoreState), P s → P (l.foldl f s)
  | [], s, hs => hs
  | x :: l, s, hs => foldl_preserve hf l (f s x) (hf s x hs)

theorem tldStep_nonneg {st : ScoreState} {t : Option String} (h : NonnegState st) :
    NonnegState (tldStep st t) := by
  unfold tldStep
  split
  · exact add_score_nonneg h (by norm_num)
  · exact ⟨h.1, add_nonneg h.2 (by norm_num)⟩

theorem htmlLangStep_nonneg {st : ScoreState} {v : Option String} (h : NonnegState st) :
    NonnegState (htmlLangStep st v) := by
  unfold htmlLangStep
  split
  · dsimp only
    split
    · exact ⟨(add_score_nonneg h (by norm_num)).1, (add_score_nonneg h (by norm_num)).2⟩
    · split
      · exact ⟨(add_score_nonneg h (by norm_num)).1, (add_score_nonneg h (by norm_num)).2⟩
      · exact ⟨h.1, add_nonneg h.2 (by norm_num)⟩
  · exact ⟨h.1, add_nonneg h.2 (by norm_num)⟩

theorem ogLocaleStep_nonneg {st : ScoreState} {v : Option String} (h : NonnegState st) :
    NonnegState (ogLocaleStep st v) := by
  unfold ogLocaleStep
  split
  · dsimp only
    split
    · exact add_score_nonneg h (by norm_num)
    · split
      · exact add_score_nonneg h (by norm_num)
      · exact h
  · exact ⟨h.1, add_nonneg h.2 (by norm_num)⟩

theorem contentLangStep_nonneg {st : ScoreState} {v : Option String} (h : NonnegState st) :
    NonnegState (contentLangStep st v) := by
  unfold contentLangStep
  split
  · dsimp only
    split
    · exact add_score_nonneg h (by norm_num)
    · split
      · exact add_score_nonneg h (by norm_num)
      · exact h
  · exact ⟨h.1, add_nonneg h.2 (by norm_num)⟩

theorem langDetStep_nonneg {st : ScoreState} {results : List LangDetResult}
    (h : NonnegState st) : NonnegState (langDetStep st results) := by
  unfold langDetStep
  rcases results with - | ⟨top, rest⟩
  · exact ⟨h.1, add_nonneg h.2 (by norm_num)⟩
  · dsimp only
    split
    · rename_i hcond
      have hc : (0 : ℚ) ≤ 6/10 * top.confidence.getD 0 := by nlinarith [hcond.2]
      exact add_score_nonneg ⟨h.1, h.2⟩ hc
    · exact ⟨h.1, add_nonneg h.2 (by norm_num)⟩

theorem ipStep_nonneg {st : ScoreState} {ip : IpGeolocation} (h : NonnegState st) :
    NonnegState (ipStep st ip) := by
  unfold ipStep
  rcases ip.countryCode with - | cc
  · exact ⟨h.1, add_nonneg h.2 (by norm_num)⟩
  · dsimp only
    split <;> exact add_score_nonneg h (by norm_num)

theorem currencyStep_nonneg {st : ScoreState} {codes : List String}
    (h : NonnegState st) : NonnegState (currencyStep st codes) := by
  unfold currencyStep
  refine foldl_preserve (fun s x hs => ?_) _ _ h
  split
  · exact add_score_nonneg hs (by norm_num)
  · exact hs

theorem phoneStep_nonneg {st : ScoreState} {l : List String}
    (h : NonnegState st) : NonnegState (phoneStep st l) :=
  foldl_preserve (fun s x hs => add_score_nonneg hs (by norm_num)) _ _ h

theorem socialStep_nonneg {st : ScoreState} {l : List SocialSignal}
    (h : NonnegState st) : NonnegState (socialStep st l) := by
  unfold socialStep
  refine foldl_preserve (fun s x hs => ?_) _ _ h
  split
  · exact add_score_nonneg hs (by norm_num)
  · exact hs

theorem scoreEvidence_nonneg (e : Evidence) : NonnegState (scoreEvidence e) :=
  socialStep_nonneg (phoneStep_nonneg (currencyStep_nonneg (ipStep_nonneg
    (langDetStep_nonneg (contentLangStep_nonneg (ogLocaleStep_nonneg
      (htmlLangStep_nonneg (tldStep_nonneg ⟨by simp, le_refl 0⟩))))))))

theorem filter_insertionSort_tied {α : Type} {r : α → α → Prop} [DecidableRel r]
    {p : α → Bool} {l : List α} (htied : ∀ a b, p a → p b → r a b) :
    (List.insertionSort r l).filter p = l.filter p := by
  have h1 : List.Sublist (l.filter p) l := List.filter_sublist l
  have hpw : (l.filter p).Pairwise r :=
    List.pairwise_of_forall_mem_list (fun a ha b hb =>
      htied a b (List.of_mem_filter ha) (List.of_mem_filter hb))
  have h2 : List.Sublist (l.filter p) (List.insertionSort r l) :=
    List.sublist_insertionSort hpw h1
  have h3 : List.Sublist (l.filter p) ((List.insertionSort r l).filter p) := by
    have hf := h2.filter p
    rwa [List.filter_filter, (by funext a; cases p a <;> rfl :
      (fun a => p a && p a) = p)] at hf
  have h4 : ((List.insertionSort r l).filter p).length = (l.filter p).length :=
    ((List.perm_insertionSort r l).filter p).length_eq
  exact (h3.eq_of_length h4.symm).symm

/-! ## Claim theorems -/

/-- C1 (counterexample): a present but unresolvable `og:locale` does NOT
lower `regionConfidence` the way an absent one does: with only a `.de` TLD,
an unresolvable `og:locale` of `"xx"` yields confidence 0.28, while an
absent `og:locale` yields 0.23. -/
theorem C1_counterexample :
    (compute_result { htmlSignals := { tld := some ".de", metaLocale := some "xx" } }).regionConfidence
      = 7/25 ∧
    (compute_result { htmlSignals := { tld := some ".de" } }).regionConfidence = 23/100 ∧
    ¬ ((compute_result { htmlSignals := { tld := some ".de", metaLocale := some "xx" } }).regionConfidence
      = (compute_result { htmlSignals := { tld := some ".de" } }).regionConfidence) := by
  refine ⟨by decide, by decide, by decide⟩

/-- C1 (amended): for the TLD, html-lang and language-detection sources a
present-but-unresolvable value still adds the configured weight to
`max_weight` exactly as an absent one does; but for `og:locale` and
`content-language` a present value that does not resolve to a region adds
nothing at all (neither to `scores` nor to `max_weight`), so it does NOT
lower `regionConfidence` the way an absent one does. -/
theorem C1_amended :
    (∀ (st : ScoreState) (t : String), t ≠ "" → TLD_MAP.lookup t = none →
      tldStep st (some t) = { st with max_weight := st.max_weight + 1 } ∧
      tldStep st none = { st with max_weight := st.max_weight + 1 }) ∧
    (∀ (st : ScoreState) (v : String), v ≠ "" → ¬ (langParts v).length ≥ 2 →
      LANG_TO_REGION.lookup ((langParts v).headD "") = none →
      (htmlLangStep st (some v)).scores = st.scores ∧
      (htmlLangStep st (some v)).max_weight = st.max_weight + 7/10) ∧
    (∀ (st : ScoreState) (top : LangDetResult) (rest : List LangDetResult),
      LANG_TO_REGION.lookup top.lang = none ∨ top.confidence.getD 0 ≤ 1/2 →
      (langDetStep st (top :: rest)).scores = st.scores ∧
      (langDetStep st (top :: rest)).max_weight = st.max_weight + 6/10) ∧
    (∀ (st : ScoreState) (v : String), v ≠ "" → ¬ (ogParts v).length ≥ 2 →
      LANG_TO_REGION.lookup (strLower ((ogParts v).headD "")) = none →
      ogLocaleStep st (some v) = st) ∧
    (∀ st : ScoreState, ogLocaleStep st none =
      { st with max_weight := st.max_weight + 8/10 }) ∧
    (∀ (st : ScoreState) (v : String), v ≠ "" → ¬ (langParts v).length ≥ 2 →
      LANG_TO_REGION.lookup ((langParts v).headD "") = none →
      contentLangStep st (some v) = st) ∧
    (∀ st : ScoreState, contentLangStep st none =
      { st with max_weight := st.max_weight + 7/10 }) := by
  refine ⟨?_, ?_, ?_, ?_, ?_, ?_, ?_⟩
  · intro st t ht hl
    constructor
    · simp [tldStep, hl]
    · simp [tldStep, strTruthy]
  · intro st v hv h2 h3
    simp only [List.headD_eq_head?_getD] at h3
    constructor
    · simp [htmlLangStep, strTruthy, hv, h2, h3]
    · simp [htmlLangStep, strTruthy, hv, h2, h3]
  · intro st top rest hdisj
    have hcond : ¬ ((LANG_TO_REGION.lookup top.lang).isSome = true ∧
        top.confidence.getD 0 > 1/2) := by
      rcases hdisj with h | h
      · simp [h]
      · exact fun hc => absurd hc.2 (not_lt.mpr h)
    constructor
    · simp only [langDetStep]
      rw [if_neg hcond]
    · simp only [langDetStep]
      rw [if_neg hcond]
  · intro st v hv h2 h3
    simp only [List.headD_eq_head?_getD] at h3
    simp [ogLocaleStep, strTruthy, hv, h2, h3]
  · intro st
    simp [ogLocaleStep, strTruthy]
  · intro st v hv h2 h3
    simp only [List.headD_eq_head?_getD] at h3
    simp [contentLangStep, strTruthy, hv, h2, h3]
  · intro st
    simp [contentLangStep, strTruthy]

/-- Witness for C1 (amended): the `og:locale` value `"xx"` is present,
single-part and unmapped, and indeed changes nothing in the state. -/
theorem C1_amended_witness :
    ogLocaleStep {} (some "xx") = ({} : ScoreState) :=
  C1_amended.2.2.2.1 {} "xx" (by decide) (by decide) (by decide)

set_option maxRecDepth 10000 in
/-- C2 (counterexample): `regionConfidence` can round to 0.0 even though
regions did receive scores: 200 distinct phone-prefix countries at 0.3 each
give a top score of 0.3 against `max_weight` 64.4, and 0.3/64.4 rounds to
0.00. -/
theorem C2_counterexample :
    (compute_result { contentSignals :=
      { phoneFormats := (List.range 200).map (fun i => toString i) } }).regionConfidence = 0 ∧
    (compute_result { contentSignals :=
      { phoneFormats := (List.range 200).map (fun i => toString i) } }).signalBreakdown ≠ [] := by
  decide

/-- C2 (amended): `regionConfidence` always lies in [0, 1] and is an exact
multiple of 1/100 (two decimals); when no region received any score it is
0.0, but the converse fails (see the counterexample): a populated breakdown
can still round to 0.0. -/
theorem C2_amended (e : Evidence) :
    0 ≤ (compute_result e).regionConfidence ∧
    (compute_result e).regionConfidence ≤ 1 ∧
    (∃ n : ℤ, (compute_result e).regionConfidence = (n : ℚ) / 100) ∧
    ((compute_result e).signalBreakdown = [] → (compute_result e).regionConfidence = 0) := by
  have hnn := scoreEvidence_nonneg e
  have hbd : (compute_result e).signalBreakdown =
      ((scoreEvidence e).scores.insertionSort (fun a b => b.2 ≤ a.2)).map
        (fun p => (p.1, roundTo 3 p.2)) := rfl
  rcases h : argmaxFirst (scoreEvidence e).scores with - | ⟨k, raw⟩
  · have hconf : (compute_result e).regionConfidence = 0 := by
      simp only [compute_result]
      rw [h]
    refine ⟨by rw [hconf], by rw [hconf]; norm_num, ⟨0, by rw [hconf]; norm_num⟩,
      fun _ => hconf⟩
  · have hmem : (k, raw) ∈ (scoreEvidence e).scores := argmaxFirst_mem h
    have hraw : 0 ≤ raw := hnn.1 (k, raw) hmem
    have hconf : (compute_result e).regionConfidence =
        roundTo 2 (if (scoreEvidence e).max_weight > 0 then
          min (raw / (scoreEvidence e).max_weight) 1 else min raw 1) := by
      simp only [compute_result]
      rw [h]
    set q : ℚ := if (scoreEvidence e).max_weight > 0 then
      min (raw / (scoreEvidence e).max_weight) 1 else min raw 1 with hq
    have hq0 : 0 ≤ q := by
      rw [hq]
      split
      · exact le_min (div_nonneg hraw (le_of_lt (by assumption))) (by norm_num)
      · exact le_min hraw (by norm_num)
    have hq1 : q ≤ 1 := by
      rw [hq]
      split <;> exact min_le_right _ 1
    have hb := roundTo_two_bounds hq0 hq1
    refine ⟨by rw [hconf]; exact hb.1, by rw [hconf]; exact hb.2,
      ⟨pyRound (q * 10 ^ 2), by rw [hconf]; unfold roundTo; norm_num⟩, ?_⟩
    intro hempty
    exfalso
    rw [hbd] at hempty
    have hsort : (scoreEvidence e).scores.insertionSort (fun a b => b.2 ≤ a.2) = [] :=
      List.map_eq_nil_iff.mp hempty
    have hscores : (scoreEvidence e).scores = [] := by
      have := List.length_insertionSort (fun a b => b.2 ≤ a.2) (scoreEvidence e).scores
      rw [hsort] at this
      exact List.length_eq_zero.mp this.symm
    rw [hscores] at h
    simp [argmaxFirst] at h

/-- Witness for C2 (amended): on empty evidence the breakdown is empty and
the confidence is exactly 0. -/
theorem C2_amended_witness : (compute_result {}).regionConfidence = 0 :=
  (C2_amended {}).2.2.2 (by decide)

/-- C3: the optimization score is `max(0, 100 − 20·critical − 10·warning −
2·info)` over the generated recommendation counts, the grade follows the
80/60/40/20 ladder, and adding one critical issue lowers the unfloored
score by exactly 20 and can only move the grade down the ladder or keep it. -/
theorem C3_score_and_grade (e : Evidence) (r : Result) :
    (generate_recommendations e r).summary.score =
      max (100 - 20 * ((generate_recommendations e r).recommendations.countP
          (fun x => x.severity = "critical") : ℤ)
        - 10 * ((generate_recommendations e r).recommendations.countP
          (fun x => x.severity = "warning") : ℤ)
        - 2 * ((generate_recommendations e r).recommendations.countP
          (fun x => x.severity = "info") : ℤ)) 0 ∧
    (generate_recommendations e r).summary.grade =
      (if (generate_recommendations e r).summary.score ≥ 80 then "A"
       else if (generate_recommendations e r).summary.score ≥ 60 then "B"
       else if (generate_recommendations e r).summary.score ≥ 40 then "C"
       else if (generate_recommendations e r).summary.score ≥ 20 then "D"
       else "F") ∧
    (∀ c w i : ℕ, unflooredScore (c + 1) w i = unflooredScore c w i - 20 ∧
      gradeRank (scoreGrade (scoreFromCounts c w i)) ≤
        gradeRank (scoreGrade (scoreFromCounts (c + 1) w i))) := by
  refine ⟨?_, ?_, ?_⟩
  · simp only [generate_recommendations, scoreFromCounts, unflooredScore]
  · simp only [generate_recommendations]
    rfl
  intro c w i
  constructor
  · unfold unflooredScore
    push_cast
    ring
  · have hle : scoreFromCounts (c + 1) w i ≤ scoreFromCounts c w i := by
      unfold scoreFromCounts unflooredScore
      apply max_le_max _ le_rfl
      push_cast
      linarith
    set x := scoreFromCounts (c + 1) w i
    set y := scoreFromCounts c w i
    unfold scoreGrade
    split_ifs <;> simp [gradeRank] <;> omega

/-- C4: the recommendation list is sorted by severity rank
(critical = 0 < warning = 1 < info = 2), and the sort is stable: within
each severity the order equals the generation order. -/
theorem C4_severity_sorted_stable (e : Evidence) (r : Result) :
    List.Sorted (fun a b => sevRank a.severity ≤ sevRank b.severity)
      (generate_recommendations e r).recommendations ∧
    ∀ s : String,
      (generate_recommendations e r).recommendations.filter
        (fun x => x.severity = s) =
      (generateRecsRaw e r).filter (fun x => x.severity = s) := by
  have hrec : (generate_recommendations e r).recommendations =
      (generateRecsRaw e r).insertionSort
        (fun a b => sevRank a.severity ≤ sevRank b.severity) := rfl
  haveI : IsTotal Recommendation
      (fun a b => sevRank a.severity ≤ sevRank b.severity) :=
    ⟨fun a b => Nat.le_total _ _⟩
  haveI : IsTrans Recommendation
      (fun a b => sevRank a.severity ≤ sevRank b.severity) :=
    ⟨fun a b c hab hbc => le_trans hab hbc⟩
  constructor
  · rw [hrec]
    exact List.sorted_insertionSort _ _
  · intro s
    rw [hrec]
    apply filter_insertionSort_tied
    intro a b ha hb
    have ha' : a.severity = s := by simpa using ha
    have hb' : b.severity = s := by simpa using hb
    simp [ha', hb']

/-- C5 (counterexample): on an empty page list,
`aggregate_site_optimization` does not return a null/absent aggregate; it
returns a fully populated report with score 100, grade A and no issues. -/
theorem C5_counterexample :
    aggregate_site_optimization [] =
      { summary := { score := 100, grade := "A", totalIssues := 0,
                     critical := 0, warnings := 0, info := 0 },
        recommendations := [] } := by
  decide

/-- C5 (amended): on an empty page list `aggregate_site_results` returns
`none`, while `aggregate_site_optimization` raises nothing but returns a
populated empty report (score 100, grade A, zero issues). -/
theorem C5_amended :
    aggregate_site_results [] = none ∧
    aggregate_site_optimization [] =
      { summary := { score := 100, grade := "A", totalIssues := 0,
                     critical := 0, warnings := 0, info := 0 },
        recommendations := [] } := by
  exact ⟨by decide, by decide⟩

theorem hreflangAudit_not_mc {hl : List String} {pl : Option String} {x : Recommendation}
    (hx : x ∈ hreflangAudit hl pl) : x.category ≠ "market-coverage" := by
  simp only [hreflangAudit] at hx
  split_ifs at hx <;> simp_all <;> aesop

theorem localeDeclarations_not_mc {a b c : Option String} {x : Recommendation}
    (hx : x ∈ localeDeclarations a b c) : x.category ≠ "market-coverage" := by
  simp only [localeDeclarations] at hx
  split_ifs at hx <;> simp_all <;> aesop

theorem localeConsistency_not_mc {a b c : Option String} {res : List LangDetResult}
    {x : Recommendation} (hx : x ∈ localeConsistency a b c res) :
    x.category ≠ "market-coverage" := by
  simp only [localeConsistency] at hx
  split_ifs at hx <;> simp_all <;> aesop

theorem tldContentMismatch_not_mc {a b : Option String} {x : Recommendation}
    (hx : x ∈ tldContentMismatch a b) : x.category ≠ "market-coverage" := by
  simp only [tldContentMismatch] at hx
  split_ifs at hx <;> simp_all <;> aesop

theorem hostingAlignment_not_mc {ip : IpGeolocation} {pr : Option String}
    {x : Recommendation} (hx : x ∈ hostingAlignment ip pr) :
    x.category ≠ "market-coverage" := by
  simp only [hostingAlignment] at hx
  split_ifs at hx <;> simp_all <;> aesop

theorem charsetAudit_not_mc {c : Option String} {x : Recommendation}
    (hx : x ∈ charsetAudit c) : x.category ≠ "market-coverage" := by
  simp only [charsetAudit] at hx
  split_ifs at hx <;> simp_all <;> aesop

theorem currencyAdaptation_not_mc {pr : Option String} {cs : ContentSignals}
    {x : Recommendation} (hx : x ∈ currencyAdaptation pr cs) :
    x.category ≠ "market-coverage" := by
  simp only [currencyAdaptation] at hx
  split_ifs at hx <;> simp_all <;> aesop

theorem socialAdaptation_not_mc {pr : Option String} {cs : ContentSignals}
    {x : Recommendation} (hx : x ∈ socialAdaptation pr cs) :
    x.category ≠ "market-coverage" := by
  simp only [socialAdaptation] at hx
  split_ifs at hx <;> simp_all <;> aesop

theorem paymentAdaptation_not_mc {pr : Option String} {cs : ContentSignals}
    {x : Recommendation} (hx : x ∈ paymentAdaptation pr cs) :
    x.category ≠ "market-coverage" := by
  simp only [paymentAdaptation] at hx
  split_ifs at hx <;> simp_all <;> aesop

theorem spellingAdaptation_not_mc {pr : Option String} {sc : SpellingCounts}
    {x : Recommendation} (hx : x ∈ spellingAdaptation pr sc) :
    x.category ≠ "market-coverage" := by
  simp only [spellingAdaptation] at hx
  split_ifs at hx <;> simp_all <;> aesop

theorem unitsAdaptation_not_mc {pr : Option String} {uc : UnitCounts}
    {x : Recommendation} (hx : x ∈ unitsAdaptation pr uc) :
    x.category ≠ "market-coverage" := by
  simp only [unitsAdaptation] at hx
  split_ifs at hx <;> simp_all <;> aesop

theorem uxAudit_not_mc {ux : UxSignals} {x : Recommendation}
    (hx : x ∈ uxAudit ux) : x.category ≠ "market-coverage" := by
  simp only [uxAudit, List.mem_append] at hx
  rcases hx with ((hx | hx) | hx) | hx
  · split_ifs at hx <;> simp_all <;> aesop
  · split at hx <;> simp_all <;> aesop
  · split at hx <;> simp_all <;> aesop
  · split_ifs at hx <;> simp_all <;> aesop

/-- Any record of the raw generation list whose category is
"market-coverage" was produced by the multi-market coverage rule. -/
theorem recsRaw_mc {e : Evidence} {r : Result} {x : Recommendation}
    (hx : x ∈ generateRecsRaw e r) (hc : x.category = "market-coverage") :
    x ∈ marketCoverage e.htmlSignals.hreflangTags := by
  simp only [generateRecsRaw, List.mem_append, or_assoc] at hx
  rcases hx with hx | hx | hx | hx | hx | hx | hx | hx | hx | hx | hx | hx | hx
  · exact absurd hc (hreflangAudit_not_mc hx)
  · exact absurd hc (localeDeclarations_not_mc hx)
  · exact absurd hc (localeConsistency_not_mc hx)
  · exact absurd hc (tldContentMismatch_not_mc hx)
  · exact absurd hc (hostingAlignment_not_mc hx)
  · exact absurd hc (charsetAudit_not_mc hx)
  · exact absurd hc (currencyAdaptation_not_mc hx)
  · exact absurd hc (socialAdaptation_not_mc hx)
  · exact absurd hc (paymentAdaptation_not_mc hx)
  · exact absurd hc (spellingAdaptation_not_mc hx)
  · exact absurd hc (unitsAdaptation_not_mc hx)
  · exact absurd hc (uxAudit_not_mc hx)
  · exact hx

theorem hreflangBases_fold_length (hl : List String) :
    ∀ acc : List String,
      (hl.foldl (fun acc h =>
        if strLower h ≠ "x-default" then
          let b := baseLang (strLower h)
          if b ∈ acc then acc else acc ++ [b]
        else acc) acc).length ≤
      acc.length + (hl.filter (fun h => strLower h ≠ "x-default")).length := by
  induction hl with
  | nil => intro acc; simp
  | cons h t ih =>
      intro acc
      rw [List.foldl_cons, List.filter_cons]
      dsimp only
      by_cases hc : strLower h = "x-default"
      · have hcd : ¬ (decide (strLower h ≠ "x-default") = true) := by simp [hc]
        rw [if_neg (not_not_intro hc), if_neg hcd]
        exact ih acc
      · have hcd : decide (strLower h ≠ "x-default") = true := by simp [hc]
        rw [if_pos hc, if_pos hcd]
        have h1 := ih (if baseLang (strLower h) ∈ acc then acc
          else acc ++ [baseLang (strLower h)])
        dsimp only at h1
        have h2 : (if baseLang (strLower h) ∈ acc then acc
            else acc ++ [baseLang (strLower h)]).length ≤ acc.length + 1 := by
          split <;> simp
        simp only [List.length_cons]
        omega

theorem hreflangBases_length (hl : List String) :
    (hreflangBases hl).length ≤
      (hl.filter (fun h => strLower h ≠ "x-default")).length := by
  have h := hreflangBases_fold_length hl []
  simpa [hreflangBases] using h

/-- If the multi-market rule fired, at least two hreflang tags remain after
excluding x-default, and `missing_major` is non-empty with at most 7
entries. -/
theorem marketCoverage_fired {hl : List String} {x : Recommendation}
    (hx : x ∈ marketCoverage hl) :
    2 ≤ (hl.filter (fun h => strLower h ≠ "x-default")).length ∧
    missingMajor hl ≠ [] ∧ (missingMajor hl).length ≤ 7 := by
  simp only [marketCoverage] at hx
  split_ifs at hx with h1 h2
  · refine ⟨?_, h2.1, h2.2⟩
    have hmm : (missingMajor hl).length =
        (MAJOR_MARKETS.filter (fun m => m ∉ hreflangBases hl)).length := by
      simp [missingMajor]
    have hfe : (fun m : String => (!(decide (m ∈ hreflangBases hl)))) =
        (fun m : String => decide (m ∉ hreflangBases hl)) := by
      funext m
      by_cases hm : m ∈ hreflangBases hl <;> simp [hm]
    have hpart := List.length_eq_length_filter_add
      (l := MAJOR_MARKETS) (fun m => decide (m ∈ hreflangBases hl))
    rw [hfe] at hpart
    have hlen10 : MAJOR_MARKETS.length = 10 := by decide
    have hcov : 3 ≤ (MAJOR_MARKETS.filter
        (fun m => decide (m ∈ hreflangBases hl))).length := by
      have h7 := h2.2
      rw [hmm] at h7
      omega
    have hnodup : (MAJOR_MARKETS.filter
        (fun m => decide (m ∈ hreflangBases hl))).Nodup :=
      List.Nodup.filter _ (by decide)
    have hsub : (MAJOR_MARKETS.filter
        (fun m => decide (m ∈ hreflangBases hl))) ⊆ hreflangBases hl := by
      intro m hm
      simpa using (List.mem_filter.mp hm).2
    have hle : (MAJOR_MARKETS.filter
        (fun m => decide (m ∈ hreflangBases hl))).length ≤
        (hreflangBases hl).length :=
      (List.subperm_of_subset hnodup hsub).length_le
    have := hreflangBases_length hl
    omega
  · simp at hx
  · simp at hx

theorem filter_ne_length_ge {l : List String} (hl : l.Nodup) (b : String) :
    l.length - 1 ≤ (l.filter (fun m => m ≠ b)).length := by
  induction l with
  | nil => simp
  | cons a t ih =>
      rw [List.filter_cons]
      have hnd := List.nodup_cons.mp hl
      by_cases hab : a = b
      · have hcd : ¬ (decide (a ≠ b) = true) := by simp [hab]
        rw [if_neg hcd]
        have hself : t.filter (fun m => m ≠ b) = t := by
          apply List.filter_eq_self.mpr
          intro m hm
          simp only [ne_eq, decide_not, Bool.not_eq_true', decide_eq_false_iff_not]
          intro hmb
          exact hnd.1 (by rw [hab, ← hmb]; exact hm)
        rw [hself]
        simp
      · have hcd : decide (a ≠ b) = true := by simp [hab]
        rw [if_pos hcd]
        have := ih hnd.2
        simp only [List.length_cons]
        omega

/-- One real hreflang tag plus x-default never fires the multi-market
rule: the single covered base leaves at least 9 major markets missing. -/
theorem marketCoverage_single_real (t : String) (ht : strLower t ≠ "x-default") :
    marketCoverage [t, "x-default"] = [] := by
  have hxd : strLower "x-default" = "x-default" := by decide
  have hbases : hreflangBases [t, "x-default"] = [baseLang (strLower t)] := by
    simp [hreflangBases, ht, hxd]
  have hfil : MAJOR_MARKETS.filter
      (fun m => m ∉ hreflangBases [t, "x-default"]) =
      MAJOR_MARKETS.filter (fun m => m ≠ baseLang (strLower t)) := by
    rw [hbases]
    congr 1
    funext m
    simp
  have hlen : 9 ≤ (missingMajor [t, "x-default"]).length := by
    have h9 := filter_ne_length_ge (l := MAJOR_MARKETS) (by decide)
      (baseLang (strLower t))
    have hlen10 : MAJOR_MARKETS.length = 10 := by decide
    simp only [missingMajor, List.length_map, hfil]
    omega
  have hc1 : ([t, "x-default"] : List String) ≠ [] ∧
      ([t, "x-default"] : List String).length ≥ 2 := ⟨by simp, by simp⟩
  have hc2 : ¬ (missingMajor [t, "x-default"] ≠ [] ∧
      (missingMajor [t, "x-default"]).length ≤ 7) := by
    rintro ⟨-, hle⟩
    omega
  unfold marketCoverage
  rw [if_pos hc1]
  dsimp only
  rw [if_neg hc2]

/-- C6: the multi-market coverage recommendation appears only when at
least 2 hreflang tags remain after excluding x-default AND the set of
uncovered major markets is non-empty with at most 7 entries; in
particular one real tag plus x-default never triggers it. -/
theorem C6_market_coverage (e : Evidence) (r : Result) :
    ((∃ x ∈ (generate_recommendations e r).recommendations,
        x.category = "market-coverage") →
      2 ≤ (e.htmlSignals.hreflangTags.filter
          (fun h => strLower h ≠ "x-default")).length ∧
      missingMajor e.htmlSignals.hreflangTags ≠ [] ∧
      (missingMajor e.htmlSignals.hreflangTags).length ≤ 7) ∧
    (∀ t : String, strLower t ≠ "x-default" →
      e.htmlSignals.hreflangTags = [t, "x-default"] →
      ¬ ∃ x ∈ (generate_recommendations e r).recommendations,
        x.category = "market-coverage") := by
  have hmem : ∀ x : Recommendation,
      x ∈ (generate_recommendations e r).recommendations →
        x ∈ generateRecsRaw e r := by
    intro x hx
    have hx' : x ∈ (generateRecsRaw e r).insertionSort
        (fun a b => sevRank a.severity ≤ sevRank b.severity) := hx
    exact (List.mem_insertionSort _).mp hx'
  constructor
  · rintro ⟨x, hx, hc⟩
    exact marketCoverage_fired (recsRaw_mc (hmem x hx) hc)
  · rintro t ht hhl ⟨x, hx, hc⟩
    have hx' := recsRaw_mc (hmem x hx) hc
    rw [hhl, marketCoverage_single_real t ht] at hx'
    exact List.not_mem_nil x hx'

/-- Witness for C6: with hreflang tags en, ja, zh and x-default the rule
fires (7 missing majors) and indeed 3 real tags remain after excluding
x-default and 7 = at most 7 majors are missing. -/
theorem C6_market_coverage_witness :
    2 ≤ ((["en", "ja", "zh", "x-default"].filter
        (fun h => strLower h ≠ "x-default")).length) ∧
    missingMajor ["en", "ja", "zh", "x-default"] ≠ [] ∧
    (missingMajor ["en", "ja", "zh", "x-default"]).length ≤ 7 :=
  (C6_market_coverage
    { htmlSignals := { hreflangTags := ["en", "ja", "zh", "x-default"] } }
    { primaryRegion := none, primaryRegionName := none, primaryLanguage := none,
      primaryLanguageName := none, likelyAudience := "", regionConfidence := 0,
      languageConfidence := none, signalBreakdown := [] }).1 (by decide)

theorem updateScore_lookup_self (m : List (String × ℕ)) (k : String) (w : ℕ) :
    (updateScore m k w).lookup k = some ((m.lookup k).getD 0 + w) := by
  induction m with
  | nil => simp [updateScore, List.lookup_cons]
  | cons a rest ih =>
      obtain ⟨a1, a2⟩ := a
      rw [updateScore]
      by_cases h : a1 = k
      · rw [if_pos h]
        subst h
        simp [List.lookup_cons]
      · rw [if_neg h]
        have hba : (k == a1) = false := beq_eq_false_iff_ne.mpr (Ne.symm h)
        simp [List.lookup_cons, hba, ih]

theorem updateScore_lookup_other (m : List (String × ℕ)) {k k' : String}
    (hne : k ≠ k') (w : ℕ) : (updateScore m k' w).lookup k = m.lookup k := by
  induction m with
  | nil =>
      simp [updateScore, List.lookup_cons, beq_eq_false_iff_ne.mpr hne]
  | cons a rest ih =>
      obtain ⟨a1, a2⟩ := a
      rw [updateScore]
      by_cases h : a1 = k'
      · rw [if_pos h]
        have hba : (k == a1) = false :=
          beq_eq_false_iff_ne.mpr (fun hh => hne (hh.trans h))
        simp [List.lookup_cons, hba]
      · rw [if_neg h]
        by_cases hka : k = a1
        · have hba : (k == a1) = true := by simp [hka]
          simp [List.lookup_cons, hba]
        · have hba : (k == a1) = false := beq_eq_false_iff_ne.mpr hka
          simp [List.lookup_cons, hba, ih]

theorem siteAccumStep_region_counts (acc : SiteAccum) (pr : PageResult) :
    (siteAccumStep acc pr).region_counts =
      (match pr.result with
       | none => acc.region_counts
       | some res =>
           if strTruthy res.primaryRegion then
             updateScore acc.region_counts (res.primaryRegion.getD "") 1
           else acc.region_counts) := by
  rcases hres : pr.result with - | res
  · unfold siteAccumStep
    rw [hres]
  · unfold siteAccumStep
    rw [hres]
    dsimp only
    split_ifs <;> rfl

theorem region_counts_foldl (k : String) :
    ∀ (prs : List PageResult) (acc : SiteAccum), k ≠ "" →
      (((prs.foldl siteAccumStep acc).region_counts.lookup k).getD 0) =
        ((acc.region_counts.lookup k).getD 0) + prs.countP (agreesWith k) := by
  intro prs
  induction prs with
  | nil => intro acc _; simp
  | cons pr t ih =>
      intro acc hk
      rw [List.foldl_cons, List.countP_cons, ih (siteAccumStep acc pr) hk,
        siteAccumStep_region_counts]
      rcases hres : pr.result with - | res
      · simp [agreesWith, hres]
      · dsimp only
        rcases hpr : res.primaryRegion with - | s
        · simp [strTruthy, hpr, agreesWith, hres]
        · by_cases hsk : s = k
          · subst hsk
            have htr : strTruthy (some s) = true := by simp [strTruthy, hk]
            rw [if_pos htr]
            have hup := updateScore_lookup_self acc.region_counts s 1
            simp only [Option.getD_some] at hup ⊢
            rw [hup]
            simp [agreesWith, hres, hpr]
            omega
          · by_cases htr : strTruthy (some s) = true
            · rw [if_pos htr]
              have hup := updateScore_lookup_other acc.region_counts
                (fun hh => hsk hh.symm) 1
              simp only [Option.getD_some] at hup ⊢
              rw [hup]
              simp [agreesWith, hres, hpr, hsk]
            · rw [if_neg htr]
              simp [agreesWith, hres, hpr, hsk]

/-- C7 (counterexample): three pages with primaryRegions JP, JP, US do NOT
always aggregate to site primaryRegion JP: if the US page's own
signalBreakdown dominates the summed map, the site region is US and the
consistency is 0.33. -/
theorem C7_counterexample :
    (aggregate_site_results [
      { result := some { signalBreakdown := [("JP", 1)], primaryRegion := some "JP" } },
      { result := some { signalBreakdown := [("JP", 1)], primaryRegion := some "JP" } },
      { result := some { signalBreakdown := [("US", 10)], primaryRegion := some "US" } }]).map
      (fun s => (s.primaryRegion, s.regionConsistency)) = some (some "US", 33/100) := by
  decide

/-- C7 (amended): when the summed signalBreakdown maps have argmax JP —
e.g. each page contributing a unit breakdown for its own region — three
pages with primaryRegions JP, JP, US aggregate to site primaryRegion JP
with regionConsistency 0.67; in general the site primaryRegion is the
(first-seen) argmax of the summed per-page breakdowns, and
regionConsistency is the rounded fraction of analyzed pages whose own
primaryRegion equals the site-level one. -/
theorem C7_amended :
    ((aggregate_site_results [
        { result := some { signalBreakdown := [("JP", 1)], primaryRegion := some "JP" } },
        { result := some { signalBreakdown := [("JP", 1)], primaryRegion := some "JP" } },
        { result := some { signalBreakdown := [("US", 1)], primaryRegion := some "US" } }]).map
        (fun s => (s.primaryRegion, s.regionConsistency)) = some (some "JP", 67/100)) ∧
    (∀ prs : List PageResult, prs ≠ [] →
      ((aggregate_site_results prs).map (fun s => s.primaryRegion) =
        some ((argmaxFirst (prs.foldl siteAccumStep {}).all_scores).map (fun p => p.1))) ∧
      (∀ k : String, k ≠ "" →
        (argmaxFirst (prs.foldl siteAccumStep {}).all_scores).map (fun p => p.1) = some k →
        0 < (prs.filter (fun pr => pr.result.isSome)).length →
        (aggregate_site_results prs).map (fun s => s.regionConsistency) =
          some (roundTo 2 ((prs.countP (agreesWith k) : ℚ) /
            ((prs.filter (fun pr => pr.result.isSome)).length : ℚ))))) := by
  constructor
  · decide
  · intro prs hne
    constructor
    · unfold aggregate_site_results
      rw [if_neg hne]
      rfl
    · intro k hk hargmax hnum
      unfold aggregate_site_results
      rw [if_neg hne]
      simp only [Option.map_some']
      congr 1
      show (if strTruthy ((argmaxFirst (prs.foldl siteAccumStep {}).all_scores).map
            (fun p => p.1)) ∧
            0 < (prs.filter (fun pr => pr.result.isSome)).length then
          roundTo 2
            (((((prs.foldl siteAccumStep {}).region_counts.lookup
              (((argmaxFirst (prs.foldl siteAccumStep {}).all_scores).map
                (fun p => p.1)).getD "")).getD 0 : ℕ) : ℚ) /
              ((prs.filter (fun pr => pr.result.isSome)).length : ℚ))
        else 0) = _
      rw [hargmax]
      have hcond : (strTruthy (some k) = true) ∧
          0 < (prs.filter (fun pr => pr.result.isSome)).length := by
        exact ⟨by simp [strTruthy, hk], hnum⟩
      rw [if_pos hcond]
      congr 1
      simp only [Option.getD_some]
      rw [region_counts_foldl k prs {} hk]
      simp

/-- Witness for C7 (amended): at the three-page JP/JP/US input with unit
breakdowns, the general characterization instantiates: regionConsistency
is the rounded fraction 2/3 of agreeing analyzed pages. -/
theorem C7_amended_witness :
    (aggregate_site_results [
      { result := some { signalBreakdown := [("JP", 1)], primaryRegion := some "JP" } },
      { result := some { signalBreakdown := [("JP", 1)], primaryRegion := some "JP" } },
      { result := some { signalBreakdown := [("US", 1)], primaryRegion := some "US" } }]).map
      (fun s => s.regionConsistency) =
    some (roundTo 2 (([
      ({ result := some { signalBreakdown := [("JP", 1)], primaryRegion := some "JP" } } : PageResult),
      { result := some { signalBreakdown := [("JP", 1)], primaryRegion := some "JP" } },
      { result := some { signalBreakdown := [("US", 1)], primaryRegion := some "US" } }].countP
        (agreesWith "JP") : ℚ) /
      (([
        ({ result := some { signalBreakdown := [("JP", 1)], primaryRegion := some "JP" } } : PageResult),
        { result := some { signalBreakdown := [("JP", 1)], primaryRegion := some "JP" } },
        { result := some { signalBreakdown := [("US", 1)], primaryRegion := some "US" } }].filter
          (fun pr => pr.result.isSome)).length : ℚ))) :=
  (C7_amended.2 [
    { result := some { signalBreakdown := [("JP", 1)], primaryRegion := some "JP" } },
    { result := some { signalBreakdown := [("JP", 1)], primaryRegion := some "JP" } },
    { result := some { signalBreakdown := [("US", 1)], primaryRegion := some "US" } }]
    (by decide)).2 "JP" (by decide) (by decide) (by decide)

/-- C8: the language-detection signal contributes to `scores` only when the
detected language maps to a region AND the confidence strictly exceeds 0.5,
in which case it adds `0.6 × confidence` to that region; with confidence
at most 0.5 it contributes nothing to `scores` while the full nominal 0.6
is added to `max_weight`. -/
theorem C8_langdet_gating :
    ∀ (st : ScoreState) (top : LangDetResult) (rest : List LangDetResult),
      ((langDetStep st (top :: rest)).scores ≠ st.scores →
        (LANG_TO_REGION.lookup top.lang).isSome ∧ top.confidence.getD 0 > 1/2) ∧
      (∀ r, LANG_TO_REGION.lookup top.lang = some r → top.confidence.getD 0 > 1/2 →
        (langDetStep st (top :: rest)).scores =
          updateScore st.scores r (6/10 * top.confidence.getD 0) ∧
        (langDetStep st (top :: rest)).max_weight =
          st.max_weight + 6/10 * top.confidence.getD 0) ∧
      (top.confidence.getD 0 ≤ 1/2 →
        (langDetStep st (top :: rest)).scores = st.scores ∧
        (langDetStep st (top :: rest)).max_weight = st.max_weight + 6/10) := by
  intro st top rest
  refine ⟨?_, ?_, ?_⟩
  · intro hne
    by_cases hc : (LANG_TO_REGION.lookup top.lang).isSome = true ∧
        top.confidence.getD 0 > 1/2
    · exact ⟨hc.1, hc.2⟩
    · exfalso
      apply hne
      simp only [langDetStep]
      rw [if_neg hc]
  · intro r hr hconf
    have hcond : (LANG_TO_REGION.lookup top.lang).isSome = true ∧
        top.confidence.getD 0 > 1/2 := ⟨by simp [hr], hconf⟩
    have hrne : r ≠ "" :=
      lookup_val_ne_empty LANG_TO_REGION (by decide) top.lang r hr
    constructor
    · simp only [langDetStep]
      rw [if_pos hcond]
      simp [add_score, hr, hrne]
    · simp only [langDetStep]
      rw [if_pos hcond]
      simp [add_score, hr, hrne]
  · intro hle
    have hcond : ¬ ((LANG_TO_REGION.lookup top.lang).isSome = true ∧
        top.confidence.getD 0 > 1/2) := fun hc => absurd hc.2 (not_lt.mpr hle)
    constructor
    · simp only [langDetStep]
      rw [if_neg hcond]
    · simp only [langDetStep]
      rw [if_neg hcond]

/-- Witness for C8: a Japanese detection at confidence 0.4 is gated out:
scores unchanged, `max_weight` grows by the nominal 0.6. -/
theorem C8_langdet_gating_witness :
    (langDetStep {} [{ lang := "ja", confidence := some (2/5) }]).scores =
      ({} : ScoreState).scores ∧
    (langDetStep {} [{ lang := "ja", confidence := some (2/5) }]).max_weight =
      ({} : ScoreState).max_weight + 6/10 :=
  (C8_langdet_gating {} { lang := "ja", confidence := some (2/5) } []).2.2 (by norm_num)

/-- C9: adding a conflicting US IP-geolocation signal to a clean `.de` TLD
never increases `regionConfidence` (here both sides round to 0.23). -/
theorem C9_conflict_not_higher :
    (compute_result { htmlSignals := { tld := some ".de" } }).regionConfidence ≥
      (compute_result
        { htmlSignals := { tld := some ".de" },
          ipGeolocation := { countryCode := some "US" } }).regionConfidence := by
  decide

/-- C10: the CDN lists of `compute_result` and `generate_recommendations`
differ: an ISP string "google" is a CDN for the recommendation rule (info
hosting-alignment) yet gets the full 0.4 IP weight in scoring, while
"twitter" gets the reduced 0.2 weight in scoring yet is no CDN for the
recommendation rule (warning, and no info, hosting-alignment). -/
theorem C10_cdn_lists_differ :
    (compute_result { ipGeolocation :=
        { countryCode := some "US", isp := "google" } }).signalBreakdown = [("US", 2/5)] ∧
    (∃ x ∈ (generate_recommendations
        { ipGeolocation := { countryCode := some "US", isp := "google" } }
        { primaryRegion := some "DE", primaryRegionName := none, primaryLanguage := none,
          primaryLanguageName := none, likelyAudience := "", regionConfidence := 0,
          languageConfidence := none, signalBreakdown := [] }).recommendations,
      x = { severity := "info", category := "hosting-alignment" }) ∧
    (compute_result { ipGeolocation :=
        { countryCode := some "US", isp := "twitter" } }).signalBreakdown = [("US", 1/5)] ∧
    (∃ x ∈ (generate_recommendations
        { ipGeolocation := { countryCode := some "US", isp := "twitter" } }
        { primaryRegion := some "DE", primaryRegionName := none, primaryLanguage := none,
          primaryLanguageName := none, likelyAudience := "", regionConfidence := 0,
          languageConfidence := none, signalBreakdown := [] }).recommendations,
      x = { severity := "warning", category := "hosting-alignment" }) ∧
    ¬ (∃ x ∈ (generate_recommendations
        { ipGeolocation := { countryCode := some "US", isp := "twitter" } }
        { primaryRegion := some "DE", primaryRegionName := none, primaryLanguage := none,
          primaryLanguageName := none, likelyAudience := "", regionConfidence := 0,
          languageConfidence := none, signalBreakdown := [] }).recommendations,
      x = { severity := "info", category := "hosting-alignment" }) := by
  refine ⟨by decide, by decide, by decide, by decide, by decide⟩

end

end Analyzer
